import Mathlib

/-!
Verification development for the winit/wgpu/egui triangle renderer
(`src/renderer/src/main.rs`).  The program renders a single triangle whose
color is driven by an egui color picker; the event loop handles resize,
redraw and close events.  We shallowly embed the data model and the
per-event control flow of `run`, `update_color_buffer` and the UI closure,
and prove the spec's claims about them.
-/

/-- `RGBA` (main.rs lines 8-14): four `f32` channels.  We model each channel
by its IEEE-754 bit pattern, a natural number below `2^32`; the byte-level
write path only ever treats channels as opaque 4-byte words. -/
structure RGBA where
  r : Nat
  g : Nat
  b : Nat
  a : Nat
  deriving DecidableEq, Repr

/-- Bit pattern of the `f32` value `1.0` (`0x3F800000`). -/
def f32OneBits : Nat := 1065353216

/-- Bit pattern of the `f32` value `0.0`. -/
def f32ZeroBits : Nat := 0

/-- The initial color `[1.0, 0.0, 0.0, 1.0]` (main.rs line 95). -/
def initialColor : RGBA := ⟨f32OneBits, f32ZeroBits, f32ZeroBits, f32OneBits⟩

/-- Little-endian 4-byte serialization of one 32-bit word, as `encase`
serializes each `f32` field of a `ShaderType` struct. -/
def f32leBytes (bits : Nat) : List Nat :=
  [bits % 256, bits / 256 % 256, bits / 65536 % 256, bits / 16777216 % 256]

/-- `encase::UniformBuffer::write(&RGBA)`: the packed 16-byte record, fields
`r, g, b, a` in declaration order at offsets 0, 4, 8, 12. -/
def serializeRGBA (c : RGBA) : List Nat :=
  f32leBytes c.r ++ f32leBytes c.g ++ f32leBytes c.b ++ f32leBytes c.a

/-- `std::mem::size_of::<RGBA>()` (main.rs line 98): the allocated size of
the color uniform buffer, in bytes. -/
def colorUniformBufferSize : Nat := 16

/-- Effect of `queue.write_buffer(buffer, offset, data)` on the buffer's
byte contents: the bytes `[offset, offset + data.length)` are replaced by
`data`, the rest is untouched. -/
def writeBufferBytes (buf : List Nat) (offset : Nat) (data : List Nat) : List Nat :=
  buf.take offset ++ data ++ buf.drop (offset + data.length)

/-- `update_color_buffer` (main.rs lines 27-31): serialize the color with
`encase` and enqueue a write of the whole record at offset 0.  Returns the
buffer contents after the write. -/
def update_color_buffer (buf : List Nat) (color : RGBA) : List Nat :=
  writeBufferBytes buf 0 (serializeRGBA color)

/-- Load operation of a render-pass color attachment. -/
inductive LoadOp where
  | clearBlack
  | load
  deriving DecidableEq, Repr

/-- Label of the color uniform buffer (main.rs line 97). -/
def colorUniformBufferName : String := "Color Uniform Buffer"

/-- GPU-side operations of one redraw, in the order the host issues them.
`queueWriteBuffer`/`queueWriteTexture`/`uiBufferUpload` are writes enqueued
on the queue; `submit` hands the encoded command buffer to the queue;
`freeTexture` destroys a UI texture. -/
inductive GpuEvent where
  | acquireFrame
  | queueWriteBuffer (buffer : String) (offset : Nat) (data : List Nat)
  | queueWriteTexture (id : Nat)
  | uiBufferUpload
  | beginRenderPass (op : LoadOp)
  | setPipeline
  | setBindGroup (index : Nat)
  | draw (vertices instances : Nat)
  | uiRender
  | endRenderPass
  | submit
  | present
  | freeTexture (id : Nat)
  deriving DecidableEq, Repr

/-- Whether an event enqueues data on the GPU queue (a write the subsequent
draws may depend on). -/
def isQueueWrite : GpuEvent → Bool
  | .queueWriteBuffer _ _ _ => true
  | .queueWriteTexture _ => true
  | .uiBufferUpload => true
  | _ => false

/-- Whether an event frees a UI texture. -/
def isFreeTexture : GpuEvent → Bool
  | .freeTexture _ => true
  | _ => false

/-- Whether an event is recorded inside (or opens) the render pass. -/
def isPassOp : GpuEvent → Bool
  | .beginRenderPass _ => true
  | .setPipeline => true
  | .setBindGroup _ => true
  | .draw _ _ => true
  | .uiRender => true
  | _ => false

/-- The UI logic closure passed to `egui_ctx.run` (main.rs lines 268-285):
a central panel with one `color_edit_button_rgba_unmultiplied` widget bound
to the mutable `color_uniform`.  `changed` is whether the widget reported a
change this frame, in which case the widget has mutated the color to
`widgetColor` and the closure itself calls `update_color_buffer`, enqueuing
the GPU write.  Returns the color after the closure and the queue events
the closure emitted. -/
def uiLogicClosure (changed : Bool) (widgetColor current : RGBA) :
    RGBA × List GpuEvent :=
  if changed then
    (widgetColor,
      [GpuEvent.queueWriteBuffer colorUniformBufferName 0 (serializeRGBA widgetColor)])
  else
    (current, [])

/-- The egui screen descriptor built each redraw (main.rs lines 290-293). -/
structure ScreenDescriptor where
  sizeInPixels : Nat × Nat
  pixelsPerPoint : ℚ
  deriving DecidableEq, Repr

/-- Per-frame inputs the host cannot determine itself: whether
`surface.get_current_texture()` succeeds, what the color widget did, and
the texture deltas egui reports (`textures_delta.set` ids and
`textures_delta.free` ids). -/
structure FrameInputs where
  acquireOk : Bool
  widgetChanged : Bool
  widgetColor : RGBA
  textureSets : List Nat
  textureFrees : List Nat
  deriving DecidableEq, Repr

/-- The mutable state captured by the `run` closure (main.rs lines 198-219):
the surface configuration's dimensions, the startup `pixels_per_point`
(line 202, an immutable binding), the current `color_uniform`, whether a
redraw has been requested, and whether the loop was asked to exit. -/
structure LoopState where
  surfaceWidth : Nat
  surfaceHeight : Nat
  pixelsPerPoint : ℚ
  colorUniform : RGBA
  redrawRequested : Bool
  exited : Bool
  deriving DecidableEq, Repr

/-- Startup state (main.rs lines 199-217): the window's inner size clamped
to at least 1 in each dimension, the scale factor sampled once, and the
initial color. -/
def initialState (w h : Nat) (scale : ℚ) : LoopState :=
  { surfaceWidth := max w 1
    surfaceHeight := max h 1
    pixelsPerPoint := scale
    colorUniform := initialColor
    redrawRequested := false
    exited := false }

/-- The window events the `match` in `run` distinguishes (main.rs lines
243-347); everything else, scale-factor changes included, falls to the
wildcard arm. -/
inductive WinEvent where
  | resized (w h : Nat)
  | redrawRequested
  | closeRequested
  | scaleFactorChanged (factor : ℚ)
  | other
  deriving DecidableEq, Repr

/-- The `egui_winit` response to `on_window_event` (main.rs line 233). -/
structure EventResponse where
  consumed : Bool
  repaint : Bool
  deriving DecidableEq, Repr

/-- What one dispatch of a window event did: whether the UI consumed it,
whether the scene-side `match` ran, how many times `window.request_redraw()`
was called, whether `surface.configure` ran, and the screen descriptor of
the redraw if one was executed. -/
structure DispatchRecord where
  uiConsumed : Bool
  sceneDispatched : Bool
  redrawRequests : Nat
  surfaceReconfigured : Bool
  screenDesc : Option ScreenDescriptor
  deriving DecidableEq, Repr

/-- `egui_event_response.repaint` handling (main.rs lines 235-237):
request a redraw before the consumed check. -/
def applyRepaint (s : LoopState) (resp : EventResponse) : LoopState :=
  if resp.repaint then { s with redrawRequested := true } else s

/-- The `Resized` arm (main.rs lines 244-251): clamp both dimensions to at
least 1, reconfigure the surface, request a redraw. -/
def handleResize (s : LoopState) (w h : Nat) : LoopState :=
  { s with
    surfaceWidth := max w 1
    surfaceHeight := max h 1
    redrawRequested := true }

/-- The `RedrawRequested` arm (main.rs lines 253-342).  On acquisition
failure the `expect` panics with the given message, modelled as `.error`.
Otherwise the host emits, in order: frame acquisition; the UI closure's
queue events (the color-uniform write when the widget changed); one
`queueWriteTexture` per entry of `textures_delta.set`; the egui
vertex/index upload (`update_buffers`); the render pass — cleared to black,
scene pipeline and bind group bound, a draw of 3 vertices and 1 instance,
then the egui draws; then submit, present, and one `freeTexture` per entry
of `textures_delta.free`.  Returns the color after the frame, the screen
descriptor used, and the event trace. -/
def redrawTrace (s : LoopState) (inp : FrameInputs) :
    Except String (RGBA × ScreenDescriptor × List GpuEvent) :=
  if inp.acquireOk then
    let stepped := uiLogicClosure inp.widgetChanged inp.widgetColor s.colorUniform
    let desc : ScreenDescriptor :=
      ⟨(s.surfaceWidth, s.surfaceHeight), s.pixelsPerPoint⟩
    .ok (stepped.1, desc,
      GpuEvent.acquireFrame ::
        (stepped.2 ++
          inp.textureSets.map GpuEvent.queueWriteTexture ++
          [GpuEvent.uiBufferUpload,
           GpuEvent.beginRenderPass LoadOp.clearBlack,
           GpuEvent.setPipeline,
           GpuEvent.setBindGroup 0,
           GpuEvent.draw 3 1,
           GpuEvent.uiRender,
           GpuEvent.endRenderPass,
           GpuEvent.submit,
           GpuEvent.present] ++
          inp.textureFrees.map GpuEvent.freeTexture))
  else
    .error "Failed to acquire next swap chain texture"

/-- One iteration of the event-loop closure for a window event (main.rs
lines 228-348): forward to egui, honor a repaint request, stop if the UI
consumed the event, otherwise dispatch on the event kind. -/
def processEvent (s : LoopState) (ev : WinEvent) (resp : EventResponse)
    (inp : FrameInputs) :
    Except String (LoopState × DispatchRecord × List GpuEvent) :=
  let n : Nat := if resp.repaint then 1 else 0
  let s1 := applyRepaint s resp
  if resp.consumed then
    .ok (s1, ⟨true, false, n, false, none⟩, [])
  else
    match ev with
    | .resized w h =>
        .ok (handleResize s1 w h, ⟨false, true, n + 1, true, none⟩, [])
    | .redrawRequested =>
        match redrawTrace s1 inp with
        | .error e => .error e
        | .ok (c, d, t) =>
            .ok ({ s1 with colorUniform := c }, ⟨false, true, n, false, some d⟩, t)
    | .closeRequested =>
        .ok ({ s1 with exited := true }, ⟨false, true, n, false, none⟩, [])
    | .scaleFactorChanged _ =>
        .ok (s1, ⟨false, true, n, false, none⟩, [])
    | .other =>
        .ok (s1, ⟨false, true, n, false, none⟩, [])

/-- Run the loop over a list of events (with their egui responses and
per-frame inputs), collecting the screen descriptor of every executed
redraw. -/
def runEvents (s : LoopState) :
    List (WinEvent × EventResponse × FrameInputs) →
    Except String (LoopState × List ScreenDescriptor)
  | [] => .ok (s, [])
  | (ev, resp, inp) :: rest =>
    match processEvent s ev resp inp with
    | .error e => .error e
    | .ok (s', r, _) =>
      match runEvents s' rest with
      | .error e => .error e
      | .ok (s'', ds) => .ok (s'', r.screenDesc.toList ++ ds)

/-! ### Helper lemmas -/

theorem redrawTrace_err (s : LoopState) (inp : FrameInputs)
    (ha : inp.acquireOk = false) :
    redrawTrace s inp = .error "Failed to acquire next swap chain texture" := by
  unfold redrawTrace
  simp [ha]

theorem redrawTrace_ok (s : LoopState) (inp : FrameInputs)
    (ha : inp.acquireOk = true) :
    redrawTrace s inp = .ok
      ((uiLogicClosure inp.widgetChanged inp.widgetColor s.colorUniform).1,
        ⟨(s.surfaceWidth, s.surfaceHeight), s.pixelsPerPoint⟩,
        GpuEvent.acquireFrame ::
          ((uiLogicClosure inp.widgetChanged inp.widgetColor s.colorUniform).2 ++
            inp.textureSets.map GpuEvent.queueWriteTexture ++
            [GpuEvent.uiBufferUpload,
             GpuEvent.beginRenderPass LoadOp.clearBlack,
             GpuEvent.setPipeline,
             GpuEvent.setBindGroup 0,
             GpuEvent.draw 3 1,
             GpuEvent.uiRender,
             GpuEvent.endRenderPass,
             GpuEvent.submit,
             GpuEvent.present] ++
            inp.textureFrees.map GpuEvent.freeTexture)) := by
  unfold redrawTrace
  simp [ha]

theorem processEvent_consumed (s : LoopState) (ev : WinEvent) (resp : EventResponse)
    (inp : FrameInputs) (hc : resp.consumed = true) :
    processEvent s ev resp inp =
      .ok (applyRepaint s resp,
        ⟨true, false, if resp.repaint then 1 else 0, false, none⟩, []) := by
  unfold processEvent
  simp [hc]

theorem processEvent_resized (s : LoopState) (w h : Nat) (resp : EventResponse)
    (inp : FrameInputs) (hc : resp.consumed = false) :
    processEvent s (.resized w h) resp inp =
      .ok (handleResize (applyRepaint s resp) w h,
        ⟨false, true, (if resp.repaint then 1 else 0) + 1, true, none⟩, []) := by
  unfold processEvent
  simp [hc]

/-! ### C1 -/

/-- C1 counterexample: at a concrete frame in which the color widget
reports a change, the UI logic closure itself emits a GPU queue write (the
`ColorUniform` buffer write performed by `update_color_buffer` inside the
closure, main.rs lines 278-282), refuting the claim that any update of the
`ColorUniform` GPU buffer is performed outside the UI logic closure. -/
theorem C1_counterexample :
    ((uiLogicClosure true ⟨f32ZeroBits, f32ZeroBits, f32OneBits, f32OneBits⟩
        initialColor).2.any isQueueWrite) = true := rfl

/-- C1 amended: when the UI's color widget reports a change during
`run_frame`, the UI logic closure itself enqueues the `ColorUniform` GPU
buffer write (via `update_color_buffer` on the queue, with the serialized
new color) in addition to mutating the color reference; the update is not
deferred to the owning frame loop. -/
theorem C1_closure_enqueues_color_write (widgetColor current : RGBA) :
    uiLogicClosure true widgetColor current =
      (widgetColor,
        [GpuEvent.queueWriteBuffer colorUniformBufferName 0
          (serializeRGBA widgetColor)]) := rfl

/-! ### C5 -/

/-- C5: writing any color via `update_color_buffer` fully overwrites the
16-byte color uniform buffer starting at offset 0 — the buffer contents
afterwards are exactly the packed bytes of the color, independent of the
prior contents — and the serialized write always has exactly the buffer's
allocated size (`std::mem::size_of::<RGBA>()`).  This holds for every
color, in particular for every color with all channels in `[0, 1]`. -/
theorem C5_color_write_total (c : RGBA) (buf : List Nat)
    (hb : buf.length = colorUniformBufferSize) :
    update_color_buffer buf c = serializeRGBA c ∧
      (serializeRGBA c).length = colorUniformBufferSize := by
  have hlen : (serializeRGBA c).length = 16 := rfl
  refine ⟨?_, hlen⟩
  unfold update_color_buffer writeBufferBytes
  have hd : buf.drop (0 + (serializeRGBA c).length) = [] := by
    apply List.drop_eq_nil_of_le
    rw [hlen, hb]
    decide
  rw [hd]
  simp

/-- C5 witness at a concrete buffer and color. -/
theorem C5_witness :
    update_color_buffer (List.replicate 16 7) initialColor = serializeRGBA initialColor ∧
      (serializeRGBA initialColor).length = colorUniformBufferSize :=
  C5_color_write_total initialColor (List.replicate 16 7) (by decide)

/-! ### C9 -/

/-- C9: if acquiring the next presentable image fails during a redraw, the
redraw (and the dispatch of the `RedrawRequested` event) terminates with
the descriptive message of the `expect` on `get_current_texture`; no
events are emitted and there is no retry, backoff or degraded-mode
result. -/
theorem C9_acquire_failure_fatal (s : LoopState) (inp : FrameInputs)
    (resp : EventResponse) (ha : inp.acquireOk = false)
    (hc : resp.consumed = false) :
    redrawTrace s inp = .error "Failed to acquire next swap chain texture" ∧
      processEvent s .redrawRequested resp inp =
        .error "Failed to acquire next swap chain texture" := by
  refine ⟨redrawTrace_err s inp ha, ?_⟩
  unfold processEvent
  simp [hc, redrawTrace_err _ inp ha]

/-- C9 witness at a concrete state and failing frame input. -/
theorem C9_witness :
    redrawTrace (initialState 800 600 1) ⟨false, false, initialColor, [], []⟩ =
        .error "Failed to acquire next swap chain texture" ∧
      processEvent (initialState 800 600 1) .redrawRequested ⟨false, false⟩
          ⟨false, false, initialColor, [], []⟩ =
        .error "Failed to acquire next swap chain texture" :=
  C9_acquire_failure_fatal (initialState 800 600 1)
    ⟨false, false, initialColor, [], []⟩ ⟨false, false⟩ rfl rfl

/-! ### C2 -/

/-- C2: for every window event dispatched by the loop, exactly one of
{the UI consumes it, the scene-side `match` observes it} holds — never
both — and when the egui response requests a repaint, a redraw is
requested even if the event is consumed. -/
theorem C2_dispatch_exclusive (s : LoopState) (ev : WinEvent)
    (resp : EventResponse) (inp : FrameInputs) (s' : LoopState)
    (r : DispatchRecord) (t : List GpuEvent)
    (he : processEvent s ev resp inp = .ok (s', r, t)) :
    ((r.uiConsumed = true ∧ r.sceneDispatched = false) ∨
      (r.uiConsumed = false ∧ r.sceneDispatched = true)) ∧
    (resp.repaint = true → 1 ≤ r.redrawRequests ∧ s'.redrawRequested = true) := by
  obtain ⟨consumed, repaint⟩ := resp
  cases consumed with
  | true =>
    rw [processEvent_consumed s ev ⟨true, repaint⟩ inp rfl] at he
    simp only [Except.ok.injEq, Prod.mk.injEq] at he
    obtain ⟨hs, hr, -⟩ := he
    subst hs
    subst hr
    refine ⟨Or.inl ⟨rfl, rfl⟩, ?_⟩
    intro hrep
    simp only at hrep
    subst hrep
    exact ⟨Nat.le_refl 1, rfl⟩
  | false =>
    cases ev with
    | resized w h =>
      rw [processEvent_resized s w h ⟨false, repaint⟩ inp rfl] at he
      simp only [Except.ok.injEq, Prod.mk.injEq] at he
      obtain ⟨hs, hr, -⟩ := he
      subst hs
      subst hr
      refine ⟨Or.inr ⟨rfl, rfl⟩, ?_⟩
      intro hrep
      exact ⟨Nat.le_add_left 1 _, rfl⟩
    | redrawRequested =>
      unfold processEvent at he
      simp only [if_neg Bool.false_ne_true, Bool.false_eq_true] at he
      cases hrt : redrawTrace (applyRepaint s ⟨false, repaint⟩) inp with
      | error e =>
        rw [hrt] at he
        exact absurd he (by simp)
      | ok v =>
        obtain ⟨c, d, t0⟩ := v
        rw [hrt] at he
        simp only [Except.ok.injEq, Prod.mk.injEq] at he
        obtain ⟨rfl, rfl, rfl⟩ := he
        refine ⟨Or.inr ⟨rfl, rfl⟩, ?_⟩
        intro hrep
        simp only at hrep
        subst hrep
        refine ⟨by simp, ?_⟩
        show (applyRepaint s ⟨false, true⟩).redrawRequested = true
        rfl
    | closeRequested =>
      unfold processEvent at he
      simp only [Bool.false_eq_true, if_false] at he
      simp only [Except.ok.injEq, Prod.mk.injEq] at he
      obtain ⟨hs, hr, -⟩ := he
      subst hs
      subst hr
      refine ⟨Or.inr ⟨rfl, rfl⟩, ?_⟩
      intro hrep
      simp only at hrep
      subst hrep
      exact ⟨Nat.le_refl 1, rfl⟩
    | scaleFactorChanged f =>
      unfold processEvent at he
      simp only [Bool.false_eq_true, if_false] at he
      simp only [Except.ok.injEq, Prod.mk.injEq] at he
      obtain ⟨hs, hr, -⟩ := he
      subst hs
      subst hr
      refine ⟨Or.inr ⟨rfl, rfl⟩, ?_⟩
      intro hrep
      simp only at hrep
      subst hrep
      exact ⟨Nat.le_refl 1, rfl⟩
    | other =>
      unfold processEvent at he
      simp only [Bool.false_eq_true, if_false] at he
      simp only [Except.ok.injEq, Prod.mk.injEq] at he
      obtain ⟨hs, hr, -⟩ := he
      subst hs
      subst hr
      refine ⟨Or.inr ⟨rfl, rfl⟩, ?_⟩
      intro hrep
      simp only at hrep
      subst hrep
      exact ⟨Nat.le_refl 1, rfl⟩

/-- State after the demo consumed-with-repaint dispatch. -/
def demoConsumedState : LoopState :=
  { surfaceWidth := 800, surfaceHeight := 600, pixelsPerPoint := 1
    colorUniform := initialColor, redrawRequested := true, exited := false }

/-- Record of the demo consumed-with-repaint dispatch. -/
def demoConsumedRecord : DispatchRecord := ⟨true, false, 1, false, none⟩

/-- C2 witness: a concrete consumed event with a repaint request. -/
theorem C2_witness :
    ((demoConsumedRecord.uiConsumed = true ∧
        demoConsumedRecord.sceneDispatched = false) ∨
      (demoConsumedRecord.uiConsumed = false ∧
        demoConsumedRecord.sceneDispatched = true)) ∧
    ((true : Bool) = true → 1 ≤ demoConsumedRecord.redrawRequests ∧
      demoConsumedState.redrawRequested = true) :=
  C2_dispatch_exclusive (initialState 800 600 1) .other ⟨true, true⟩
    ⟨true, false, initialColor, [], []⟩ demoConsumedState demoConsumedRecord []
    (by rfl)

/-! ### C3 -/

/-- C3: every resize event that reaches the scene dispatch, including one
with a zero dimension, sets the surface configuration to
`(max w 1, max h 1)` — so both dimensions are always at least 1 —
reconfigures the surface, and requests a redraw; the same clamping is
applied to the initial window size at startup. -/
theorem C3_resize_clamps (s : LoopState) (w h : Nat) (resp : EventResponse)
    (inp : FrameInputs) (s' : LoopState) (r : DispatchRecord)
    (t : List GpuEvent) (hc : resp.consumed = false)
    (he : processEvent s (.resized w h) resp inp = .ok (s', r, t)) :
    (s'.surfaceWidth = max w 1 ∧ s'.surfaceHeight = max h 1 ∧
      1 ≤ s'.surfaceWidth ∧ 1 ≤ s'.surfaceHeight ∧
      r.surfaceReconfigured = true ∧ 1 ≤ r.redrawRequests) ∧
    ∀ w0 h0 : Nat, ∀ p : ℚ,
      (initialState w0 h0 p).surfaceWidth = max w0 1 ∧
        (initialState w0 h0 p).surfaceHeight = max h0 1 := by
  rw [processEvent_resized s w h resp inp hc] at he
  simp only [Except.ok.injEq, Prod.mk.injEq] at he
  obtain ⟨rfl, rfl, rfl⟩ := he
  refine ⟨⟨rfl, rfl, Nat.le_max_right w 1, Nat.le_max_right h 1, rfl,
    Nat.le_add_left 1 _⟩, ?_⟩
  intro w0 h0 p
  exact ⟨rfl, rfl⟩

/-- State after resizing the demo loop state to `0 × 0`. -/
def demoResizedZero : LoopState :=
  { surfaceWidth := 1, surfaceHeight := 1, pixelsPerPoint := 1
    colorUniform := initialColor, redrawRequested := true, exited := false }

/-- Record of a non-consumed resize dispatch without a repaint request. -/
def demoRecResize : DispatchRecord := ⟨false, true, 1, true, none⟩

/-- C3 witness: resizing the 800×600 startup state to 0×0 clamps to 1×1. -/
theorem C3_witness :
    (demoResizedZero.surfaceWidth = max 0 1 ∧
      demoResizedZero.surfaceHeight = max 0 1 ∧
      1 ≤ demoResizedZero.surfaceWidth ∧ 1 ≤ demoResizedZero.surfaceHeight ∧
      demoRecResize.surfaceReconfigured = true ∧
      1 ≤ demoRecResize.redrawRequests) ∧
    (∀ w0 h0 : Nat, ∀ p : ℚ,
      (initialState w0 h0 p).surfaceWidth = max w0 1 ∧
        (initialState w0 h0 p).surfaceHeight = max h0 1) :=
  C3_resize_clamps (initialState 800 600 1) 0 0 ⟨false, false⟩
    ⟨true, false, initialColor, [], []⟩ demoResizedZero demoRecResize [] rfl
    (by rfl)

/-! ### C4 -/

/-- C4: reconfiguring is idempotent — dispatching two consecutive resize
events with the same `(w, h)` leaves the surface configuration (width and
height) identical to dispatching one such event. -/
theorem C4_reconfigure_idempotent (s : LoopState) (w h : Nat)
    (resp1 resp2 : EventResponse) (inp1 inp2 : FrameInputs)
    (h1 : resp1.consumed = false) (h2 : resp2.consumed = false)
    (s1 : LoopState) (r1 : DispatchRecord) (t1 : List GpuEvent)
    (s2 : LoopState) (r2 : DispatchRecord) (t2 : List GpuEvent)
    (e1 : processEvent s (.resized w h) resp1 inp1 = .ok (s1, r1, t1))
    (e2 : processEvent s1 (.resized w h) resp2 inp2 = .ok (s2, r2, t2)) :
    s2.surfaceWidth = s1.surfaceWidth ∧ s2.surfaceHeight = s1.surfaceHeight := by
  rw [processEvent_resized s w h resp1 inp1 h1] at e1
  simp only [Except.ok.injEq, Prod.mk.injEq] at e1
  obtain ⟨rfl, -, -⟩ := e1
  rw [processEvent_resized _ w h resp2 inp2 h2] at e2
  simp only [Except.ok.injEq, Prod.mk.injEq] at e2
  obtain ⟨rfl, -, -⟩ := e2
  exact ⟨rfl, rfl⟩

/-- C4 witness: two identical resizes of the startup state agree with one
on the surface configuration. -/
theorem C4_witness :
    (1024 : Nat) = 1024 ∧ (768 : Nat) = 768 := by
  have h := C4_reconfigure_idempotent (initialState 800 600 1) 1024 768
    ⟨false, false⟩ ⟨false, false⟩ ⟨true, false, initialColor, [], []⟩
    ⟨true, false, initialColor, [], []⟩ rfl rfl
    { surfaceWidth := 1024, surfaceHeight := 768, pixelsPerPoint := 1
      colorUniform := initialColor, redrawRequested := true, exited := false }
    demoRecResize []
    { surfaceWidth := 1024, surfaceHeight := 768, pixelsPerPoint := 1
      colorUniform := initialColor, redrawRequested := true, exited := false }
    demoRecResize [] (by rfl) (by rfl)
  exact h

/-! ### More helper lemmas -/

theorem applyRepaint_pixelsPerPoint (s : LoopState) (resp : EventResponse) :
    (applyRepaint s resp).pixelsPerPoint = s.pixelsPerPoint := by
  unfold applyRepaint
  split <;> rfl

theorem isFreeTexture_eq_true (e : GpuEvent) (h : isFreeTexture e = true) :
    ∃ id, e = GpuEvent.freeTexture id := by
  cases e <;> simp [isFreeTexture] at h ⊢

theorem filter_isPassOp_map_writeTexture (l : List Nat) :
    (l.map GpuEvent.queueWriteTexture).filter isPassOp = [] := by
  induction l with
  | nil => rfl
  | cons x xs ih => simp [List.filter_cons, isPassOp, ih]

theorem filter_isPassOp_map_freeTexture (l : List Nat) :
    (l.map GpuEvent.freeTexture).filter isPassOp = [] := by
  induction l with
  | nil => rfl
  | cons x xs ih => simp [List.filter_cons, isPassOp, ih]

/-! ### C6 -/

/-- C6: within every successful redraw, all GPU queue writes the frame's
draws depend on — the color-uniform write when the color changed, the UI
texture updates, and the UI vertex/index upload — occur strictly before
the single `submit` of the command buffer: the trace splits as
`pre ++ submit :: post` with no submit in `pre` and no queue write in
`post`, the UI buffer upload is in `pre`, and when the widget changed the
color-uniform write is in `pre`. -/
theorem C6_writes_before_submit (s : LoopState) (inp : FrameInputs)
    (c : RGBA) (d : ScreenDescriptor) (t : List GpuEvent)
    (he : redrawTrace s inp = .ok (c, d, t)) :
    ∃ pre post, t = pre ++ GpuEvent.submit :: post ∧
      (∀ e ∈ pre, e ≠ GpuEvent.submit) ∧
      (∀ e ∈ post, isQueueWrite e = false) ∧
      GpuEvent.uiBufferUpload ∈ pre ∧
      (inp.widgetChanged = true →
        GpuEvent.queueWriteBuffer colorUniformBufferName 0
          (serializeRGBA inp.widgetColor) ∈ pre) := by
  cases hao : inp.acquireOk with
  | false =>
    rw [redrawTrace_err s inp hao] at he
    exact absurd he (by simp)
  | true =>
    rw [redrawTrace_ok s inp hao] at he
    simp only [Except.ok.injEq, Prod.mk.injEq] at he
    obtain ⟨-, -, rfl⟩ := he
    refine ⟨GpuEvent.acquireFrame ::
        ((uiLogicClosure inp.widgetChanged inp.widgetColor s.colorUniform).2 ++
          inp.textureSets.map GpuEvent.queueWriteTexture ++
          [GpuEvent.uiBufferUpload, GpuEvent.beginRenderPass LoadOp.clearBlack,
           GpuEvent.setPipeline, GpuEvent.setBindGroup 0, GpuEvent.draw 3 1,
           GpuEvent.uiRender, GpuEvent.endRenderPass]),
      GpuEvent.present :: inp.textureFrees.map GpuEvent.freeTexture,
      ?_, ?_, ?_, ?_, ?_⟩
    · simp [List.append_assoc]
    · intro e he hcontra
      subst hcontra
      cases hch : inp.widgetChanged <;>
        simp [uiLogicClosure, hch, List.mem_cons, List.mem_append,
          List.mem_map] at he
    · intro e he
      simp only [List.mem_cons, List.mem_map] at he
      rcases he with rfl | ⟨x, -, rfl⟩
      · rfl
      · rfl
    · simp [List.mem_cons, List.mem_append]
    · intro hch
      simp [uiLogicClosure, hch, List.mem_cons, List.mem_append]

/-! ### C7 -/

/-- C7: in every successful redraw, the UI textures marked for removal in
that frame's output are freed only after the command buffer containing the
render pass has been submitted: the trace splits as `pre ++ submit :: post`
with no submit and no `freeTexture` in `pre`, and every removal id is freed
in `post`. -/
theorem C7_free_only_after_submit (s : LoopState) (inp : FrameInputs)
    (c : RGBA) (d : ScreenDescriptor) (t : List GpuEvent)
    (he : redrawTrace s inp = .ok (c, d, t)) :
    ∃ pre post, t = pre ++ GpuEvent.submit :: post ∧
      (∀ e ∈ pre, e ≠ GpuEvent.submit) ∧
      (∀ e ∈ pre, isFreeTexture e = false) ∧
      ∀ id ∈ inp.textureFrees, GpuEvent.freeTexture id ∈ post := by
  cases hao : inp.acquireOk with
  | false =>
    rw [redrawTrace_err s inp hao] at he
    exact absurd he (by simp)
  | true =>
    rw [redrawTrace_ok s inp hao] at he
    simp only [Except.ok.injEq, Prod.mk.injEq] at he
    obtain ⟨-, -, rfl⟩ := he
    refine ⟨GpuEvent.acquireFrame ::
        ((uiLogicClosure inp.widgetChanged inp.widgetColor s.colorUniform).2 ++
          inp.textureSets.map GpuEvent.queueWriteTexture ++
          [GpuEvent.uiBufferUpload, GpuEvent.beginRenderPass LoadOp.clearBlack,
           GpuEvent.setPipeline, GpuEvent.setBindGroup 0, GpuEvent.draw 3 1,
           GpuEvent.uiRender, GpuEvent.endRenderPass]),
      GpuEvent.present :: inp.textureFrees.map GpuEvent.freeTexture,
      ?_, ?_, ?_, ?_⟩
    · simp [List.append_assoc]
    · intro e he hcontra
      subst hcontra
      cases hch : inp.widgetChanged <;>
        simp [uiLogicClosure, hch, List.mem_cons, List.mem_append,
          List.mem_map] at he
    · intro e he
      by_contra hcontra
      rw [Bool.not_eq_false] at hcontra
      obtain ⟨id, rfl⟩ := isFreeTexture_eq_true e hcontra
      cases hch : inp.widgetChanged <;>
        simp [uiLogicClosure, hch, List.mem_cons, List.mem_append,
          List.mem_map] at he
    · intro id hid
      exact List.mem_cons_of_mem _ (List.mem_map_of_mem _ hid)

/-! ### C8 -/

/-- C8: every successful redraw records exactly one render pass, its color
attachment loaded with clear-to-black; inside it the scene pipeline and
bind group 0 are bound, a draw of exactly 3 vertices and 1 instance is
issued first, and the UI draw follows — the pass-recorded operations of the
trace are exactly this sequence. -/
theorem C8_single_clear_pass_scene_then_ui (s : LoopState) (inp : FrameInputs)
    (c : RGBA) (d : ScreenDescriptor) (t : List GpuEvent)
    (he : redrawTrace s inp = .ok (c, d, t)) :
    t.filter isPassOp =
      [GpuEvent.beginRenderPass LoadOp.clearBlack, GpuEvent.setPipeline,
       GpuEvent.setBindGroup 0, GpuEvent.draw 3 1, GpuEvent.uiRender] := by
  cases hao : inp.acquireOk with
  | false =>
    rw [redrawTrace_err s inp hao] at he
    exact absurd he (by simp)
  | true =>
    rw [redrawTrace_ok s inp hao] at he
    simp only [Except.ok.injEq, Prod.mk.injEq] at he
    obtain ⟨-, -, rfl⟩ := he
    cases hch : inp.widgetChanged <;>
      simp [uiLogicClosure, hch, List.filter_append, List.filter_cons, isPassOp,
        filter_isPassOp_map_writeTexture, filter_isPassOp_map_freeTexture]

/-! ### C10 -/

theorem processEvent_pixelsPerPoint (s : LoopState) (ev : WinEvent)
    (resp : EventResponse) (inp : FrameInputs) (s' : LoopState)
    (r : DispatchRecord) (t : List GpuEvent)
    (he : processEvent s ev resp inp = .ok (s', r, t)) :
    s'.pixelsPerPoint = s.pixelsPerPoint ∧
      ∀ d, r.screenDesc = some d → d.pixelsPerPoint = s.pixelsPerPoint := by
  obtain ⟨consumed, repaint⟩ := resp
  cases consumed with
  | true =>
    rw [processEvent_consumed s ev ⟨true, repaint⟩ inp rfl] at he
    simp only [Except.ok.injEq, Prod.mk.injEq] at he
    obtain ⟨rfl, rfl, rfl⟩ := he
    refine ⟨applyRepaint_pixelsPerPoint s _, ?_⟩
    intro d hd
    exact absurd hd (by simp)
  | false =>
    cases ev with
    | resized w h =>
      rw [processEvent_resized s w h ⟨false, repaint⟩ inp rfl] at he
      simp only [Except.ok.injEq, Prod.mk.injEq] at he
      obtain ⟨rfl, rfl, rfl⟩ := he
      refine ⟨?_, ?_⟩
      · show (applyRepaint s ⟨false, repaint⟩).pixelsPerPoint = s.pixelsPerPoint
        exact applyRepaint_pixelsPerPoint s _
      · intro d hd
        exact absurd hd (by simp)
    | redrawRequested =>
      unfold processEvent at he
      simp only [if_neg Bool.false_ne_true, Bool.false_eq_true] at he
      cases hrt : redrawTrace (applyRepaint s ⟨false, repaint⟩) inp with
      | error e =>
        rw [hrt] at he
        exact absurd he (by simp)
      | ok v =>
        obtain ⟨c, d0, t0⟩ := v
        rw [hrt] at he
        simp only [Except.ok.injEq, Prod.mk.injEq] at he
        obtain ⟨rfl, rfl, rfl⟩ := he
        cases hao : inp.acquireOk with
        | false =>
          rw [redrawTrace_err _ inp hao] at hrt
          exact absurd hrt (by simp)
        | true =>
          rw [redrawTrace_ok _ inp hao] at hrt
          simp only [Except.ok.injEq, Prod.mk.injEq] at hrt
          obtain ⟨-, hd0, -⟩ := hrt
          refine ⟨?_, ?_⟩
          · show (applyRepaint s ⟨false, repaint⟩).pixelsPerPoint = s.pixelsPerPoint
            exact applyRepaint_pixelsPerPoint s _
          · intro d hd
            injection hd with hd
            subst hd
            rw [← hd0]
            exact applyRepaint_pixelsPerPoint s _
    | closeRequested =>
      unfold processEvent at he
      simp only [if_neg Bool.false_ne_true, Bool.false_eq_true,
        Except.ok.injEq, Prod.mk.injEq] at he
      obtain ⟨rfl, rfl, rfl⟩ := he
      refine ⟨?_, ?_⟩
      · show (applyRepaint s ⟨false, repaint⟩).pixelsPerPoint = s.pixelsPerPoint
        exact applyRepaint_pixelsPerPoint s _
      · intro d hd
        exact absurd hd (by simp)
    | scaleFactorChanged f =>
      unfold processEvent at he
      simp only [if_neg Bool.false_ne_true, Bool.false_eq_true,
        Except.ok.injEq, Prod.mk.injEq] at he
      obtain ⟨rfl, rfl, rfl⟩ := he
      refine ⟨applyRepaint_pixelsPerPoint s _, ?_⟩
      intro d hd
      exact absurd hd (by simp)
    | other =>
      unfold processEvent at he
      simp only [if_neg Bool.false_ne_true, Bool.false_eq_true,
        Except.ok.injEq, Prod.mk.injEq] at he
      obtain ⟨rfl, rfl, rfl⟩ := he
      refine ⟨applyRepaint_pixelsPerPoint s _, ?_⟩
      intro d hd
      exact absurd hd (by simp)

theorem runEvents_pixelsPerPoint
    (evs : List (WinEvent × EventResponse × FrameInputs)) :
    ∀ (s s' : LoopState) (ds : List ScreenDescriptor),
      runEvents s evs = .ok (s', ds) →
      s'.pixelsPerPoint = s.pixelsPerPoint ∧
        ∀ d ∈ ds, d.pixelsPerPoint = s.pixelsPerPoint := by
  induction evs with
  | nil =>
    intro s s' ds h
    unfold runEvents at h
    simp only [Except.ok.injEq, Prod.mk.injEq] at h
    obtain ⟨rfl, rfl⟩ := h
    exact ⟨rfl, by simp⟩
  | cons head rest ih =>
    obtain ⟨ev, resp, inp⟩ := head
    intro s s' ds h
    unfold runEvents at h
    cases hpe : processEvent s ev resp inp with
    | error e =>
      rw [hpe] at h
      exact absurd h (by simp)
    | ok v =>
      obtain ⟨s1, r, t⟩ := v
      rw [hpe] at h
      dsimp only at h
      cases hrun : runEvents s1 rest with
      | error e =>
        rw [hrun] at h
        exact absurd h (by simp)
      | ok w =>
        obtain ⟨s2, ds2⟩ := w
        rw [hrun] at h
        simp only [Except.ok.injEq, Prod.mk.injEq] at h
        obtain ⟨rfl, rfl⟩ := h
        obtain ⟨hp1, hp2⟩ := processEvent_pixelsPerPoint s ev resp inp s1 r t hpe
        obtain ⟨hq1, hq2⟩ := ih s1 s2 ds2 hrun
        refine ⟨hq1.trans hp1, ?_⟩
        intro d hd
        rcases List.mem_append.1 hd with hd1 | hd2
        · cases hsd : r.screenDesc with
          | none =>
            rw [hsd] at hd1
            simp at hd1
          | some d0 =>
            rw [hsd] at hd1
            simp only [Option.toList_some, List.mem_singleton] at hd1
            subst hd1
            exact hp2 d hsd
        · exact (hq2 d hd2).trans hp1

/-- C10: the pixels-per-point used for the UI screen descriptor is the
window scale factor sampled once at startup and never updated: after any
sequence of dispatched window events — scale-factor-change events
included — the loop state's `pixelsPerPoint` still equals the startup
value, and every screen descriptor built by any redraw along the way used
exactly that startup value. -/
theorem C10_pixels_per_point_startup_constant (w h : Nat) (p : ℚ)
    (evs : List (WinEvent × EventResponse × FrameInputs))
    (s' : LoopState) (ds : List ScreenDescriptor)
    (he : runEvents (initialState w h p) evs = .ok (s', ds)) :
    s'.pixelsPerPoint = p ∧ ∀ d ∈ ds, d.pixelsPerPoint = p := by
  obtain ⟨h1, h2⟩ := runEvents_pixelsPerPoint evs (initialState w h p) s' ds he
  exact ⟨h1, h2⟩

/-- Per-frame inputs of a quiet demo frame. -/
def demoFrameInputs : FrameInputs := ⟨true, false, initialColor, [], []⟩

/-- C10 witness: a concrete run containing a scale-factor change to 2 and
then a redraw still uses the startup scale factor 1 in its screen
descriptor. -/
theorem C10_witness :
    (initialState 800 600 1).pixelsPerPoint = 1 ∧
      ∀ d ∈ [(⟨(800, 600), 1⟩ : ScreenDescriptor)], d.pixelsPerPoint = 1 :=
  C10_pixels_per_point_startup_constant 800 600 1
    [(.scaleFactorChanged 2, ⟨false, false⟩, demoFrameInputs),
     (.redrawRequested, ⟨false, false⟩, demoFrameInputs)]
    (initialState 800 600 1) [⟨(800, 600), 1⟩] (by rfl)

/-! ### Witnesses for the redraw-trace claims -/

/-- A demo color: opaque blue. -/
def demoColorBlue : RGBA := ⟨f32ZeroBits, f32ZeroBits, f32OneBits, f32OneBits⟩

/-- Per-frame inputs of a demo frame with a widget change, one texture
update and one texture removal. -/
def demoChangedInputs : FrameInputs := ⟨true, true, demoColorBlue, [5], [3]⟩

/-- The event trace of the demo changed-widget frame. -/
def demoTrace : List GpuEvent :=
  [GpuEvent.acquireFrame,
   GpuEvent.queueWriteBuffer colorUniformBufferName 0 (serializeRGBA demoColorBlue),
   GpuEvent.queueWriteTexture 5,
   GpuEvent.uiBufferUpload,
   GpuEvent.beginRenderPass LoadOp.clearBlack,
   GpuEvent.setPipeline,
   GpuEvent.setBindGroup 0,
   GpuEvent.draw 3 1,
   GpuEvent.uiRender,
   GpuEvent.endRenderPass,
   GpuEvent.submit,
   GpuEvent.present,
   GpuEvent.freeTexture 3]

/-- C6 witness at the demo changed-widget frame. -/
theorem C6_witness :
    ∃ pre post, demoTrace = pre ++ GpuEvent.submit :: post ∧
      (∀ e ∈ pre, e ≠ GpuEvent.submit) ∧
      (∀ e ∈ post, isQueueWrite e = false) ∧
      GpuEvent.uiBufferUpload ∈ pre ∧
      (demoChangedInputs.widgetChanged = true →
        GpuEvent.queueWriteBuffer colorUniformBufferName 0
          (serializeRGBA demoChangedInputs.widgetColor) ∈ pre) :=
  C6_writes_before_submit (initialState 800 600 1) demoChangedInputs
    demoColorBlue ⟨(800, 600), 1⟩ demoTrace (by rfl)

/-- C7 witness at the demo changed-widget frame. -/
theorem C7_witness :
    ∃ pre post, demoTrace = pre ++ GpuEvent.submit :: post ∧
      (∀ e ∈ pre, e ≠ GpuEvent.submit) ∧
      (∀ e ∈ pre, isFreeTexture e = false) ∧
      ∀ id ∈ demoChangedInputs.textureFrees, GpuEvent.freeTexture id ∈ post :=
  C7_free_only_after_submit (initialState 800 600 1) demoChangedInputs
    demoColorBlue ⟨(800, 600), 1⟩ demoTrace (by rfl)

/-- C8 witness at the demo changed-widget frame. -/
theorem C8_witness :
    demoTrace.filter isPassOp =
      [GpuEvent.beginRenderPass LoadOp.clearBlack, GpuEvent.setPipeline,
       GpuEvent.setBindGroup 0, GpuEvent.draw 3 1, GpuEvent.uiRender] :=
  C8_single_clear_pass_scene_then_ui (initialState 800 600 1) demoChangedInputs
    demoColorBlue ⟨(800, 600), 1⟩ demoTrace (by rfl)
